import Mathlib

/-!
Verification development for the analog-hub / ams-compose dependency manager.

The definitions below are a shallow embedding of the Python sources:

* `src/analog_hub/core/extractor.py`  (`PathExtractor`)
* `src/analog_hub/core/installer.py`  (`LibraryInstaller`)
* `src/analog_hub/core/mirror.py`     (`RepositoryMirror`)

File contents are modelled as byte lists (`Bytes`); directory trees as
flat listings of regular files keyed by the UTF-8 bytes of their path
relative to the directory root, mirroring `Path.rglob` plus `is_file`.
SHA-256 digests are modelled by the exact byte stream that the source
feeds into `hashlib.sha256`: two streams are equal exactly when the
source hands identical bytes to the hash, so every equality proved here
transfers to equality of the real digests, and every stream inequality
transfers up to SHA-256 collisions.  The empty-string digest returned
for non-directories is modelled as `none`; a real digest never equals
the empty string, so the two sides stay distinguishable.

Exception control flow (`try`/`except` blocks) is embedded by explicit
result values, with the possible failure of each externally-effectful
step (copy, checksum, metadata write, clone, checkout, move) supplied
as an explicit outcome parameter.
-/

/-- Bytes of a file path or of file contents, one `Nat` per byte. -/
abbrev Bytes := List Nat

/-- `startsWithB pat l` is true when `pat` is an initial segment of `l`
(Python `str.startswith`). -/
def startsWithB : Bytes → Bytes → Bool
  | [], _ => true
  | _ :: _, [] => false
  | a :: as, b :: bs => a == b && startsWithB as bs

/-- Basename of a `/`-separated relative path given as bytes: the part
after the last separator byte 47 (`Path.name`). -/
def basenameB (p : Bytes) : Bytes :=
  p.foldl (fun acc c => if c == 47 then [] else acc ++ [c]) []

/-- UTF-8 bytes of `".analog-hub-meta"`, the marker that
`PathExtractor._calculate_directory_checksum` skips
(`file_path.name.startswith(".analog-hub-meta")`). -/
def metaMarker : Bytes :=
  [46, 97, 110, 97, 108, 111, 103, 45, 104, 117, 98, 45, 109, 101, 116, 97]

/-- UTF-8 bytes of `".analog-hub-meta.yaml"`, the metadata file that
`PathExtractor.extract_library` writes into a directory destination. -/
def metaFileName : Bytes :=
  metaMarker ++ [46, 121, 97, 109, 108]

/-- A regular file inside a directory tree: path relative to the tree
root, contents, and whether `open` succeeds on it (the source folds the
placeholder `b"<unreadable>"` for files it cannot read). -/
structure FileEntry where
  relpath : Bytes
  content : Bytes
  readable : Bool
deriving DecidableEq, Repr

/-- The file is skipped by the checksum's metadata filter:
its basename starts with `".analog-hub-meta"`. -/
def isMetaFile (e : FileEntry) : Bool :=
  startsWithB metaMarker (basenameB e.relpath)

/-- `_calculate_directory_checksum`: drop the tool's own metadata files
before hashing. -/
def filterMeta (files : List FileEntry) : List FileEntry :=
  files.filter (fun e => !isMetaFile e)

/-- The bytes `b"<unreadable>"` folded for files `open` fails on. -/
def unreadableBytes : Bytes :=
  [60, 117, 110, 114, 101, 97, 100, 97, 98, 108, 101, 62]

/-- Bytes a single file contributes to the checksum stream:
first `str(relative_path).encode('utf-8')`, then the file contents
(or the placeholder when the file is unreadable). -/
def fileStream (e : FileEntry) : Bytes :=
  e.relpath ++ (if e.readable then e.content else unreadableBytes)

/-- Ordering on file entries used to model `sorted(directory.rglob("*"))`.
The source sorts by the path string; paths inside one directory are
distinct, so the content/readable tie-breaks below never fire on a
listing that comes from a real directory — they only make the order
total on all values of the model type. -/
def entryLe (a b : FileEntry) : Prop :=
  a.relpath < b.relpath ∨
    (a.relpath = b.relpath ∧
      (a.content < b.content ∨
        (a.content = b.content ∧ a.readable ≤ b.readable)))

instance : DecidableRel entryLe := fun a b => by
  unfold entryLe
  infer_instance

/-- The sorted, metadata-filtered listing of a directory. -/
def sortedFiles (files : List FileEntry) : List FileEntry :=
  List.insertionSort entryLe (filterMeta files)

/-- The byte stream `_calculate_directory_checksum` feeds into SHA-256
for a directory with the given listing: files in sorted order, each
contributing its relative path bytes then its content bytes. -/
def checksumStream (files : List FileEntry) : Bytes :=
  (sortedFiles files).flatMap fileStream

instance : IsTotal FileEntry entryLe where
  total a b := by
    rcases lt_trichotomy a.relpath b.relpath with h | h | h
    · exact Or.inl (Or.inl h)
    · rcases lt_trichotomy a.content b.content with h2 | h2 | h2
      · exact Or.inl (Or.inr ⟨h, Or.inl h2⟩)
      · rcases le_total a.readable b.readable with h3 | h3
        · exact Or.inl (Or.inr ⟨h, Or.inr ⟨h2, h3⟩⟩)
        · exact Or.inr (Or.inr ⟨h.symm, Or.inr ⟨h2.symm, h3⟩⟩)
      · exact Or.inr (Or.inr ⟨h.symm, Or.inl h2⟩)
    · exact Or.inr (Or.inl h)

instance : IsTrans FileEntry entryLe where
  trans a b c hab hbc := by
    rcases hab with h1 | ⟨e1, h1⟩
    · rcases hbc with h2 | ⟨e2, _⟩
      · exact Or.inl (h1.trans h2)
      · exact Or.inl (lt_of_lt_of_le h1 (le_of_eq e2))
    · rcases hbc with h2 | ⟨e2, h2⟩
      · exact Or.inl (lt_of_le_of_lt (le_of_eq e1) h2)
      · rcases h1 with hc1 | ⟨ec1, hr1⟩
        · rcases h2 with hc2 | ⟨ec2, _⟩
          · exact Or.inr ⟨e1.trans e2, Or.inl (hc1.trans hc2)⟩
          · exact Or.inr ⟨e1.trans e2, Or.inl (lt_of_lt_of_le hc1 (le_of_eq ec2))⟩
        · rcases h2 with hc2 | ⟨ec2, hr2⟩
          · exact Or.inr ⟨e1.trans e2, Or.inl (lt_of_le_of_lt (le_of_eq ec1) hc2)⟩
          · exact Or.inr ⟨e1.trans e2, Or.inr ⟨ec1.trans ec2, le_trans hr1 hr2⟩⟩

instance : IsAntisymm FileEntry entryLe where
  antisymm a b hab hba := by
    rcases hab with h1 | ⟨e1, h1⟩
    · rcases hba with h2 | ⟨e2, _⟩
      · exact absurd (h1.trans h2) (lt_irrefl _)
      · exact absurd (lt_of_lt_of_le h1 (le_of_eq e2)) (lt_irrefl _)
    · rcases hba with h2 | ⟨e2, h2⟩
      · exact absurd (lt_of_lt_of_le h2 (le_of_eq e1)) (lt_irrefl _)
      · have hc : a.content = b.content := by
          rcases h1 with hc1 | ⟨ec1, _⟩
          · rcases h2 with hc2 | ⟨ec2, _⟩
            · exact absurd (hc1.trans hc2) (lt_irrefl _)
            · exact ec2.symm
          · exact ec1
        have hr : a.readable = b.readable := by
          rcases h1 with hc1 | ⟨_, hr1⟩
          · exact absurd (lt_of_lt_of_le hc1 (le_of_eq hc.symm)) (lt_irrefl _)
          · rcases h2 with hc2 | ⟨_, hr2⟩
            · exact absurd (lt_of_lt_of_le hc2 (le_of_eq hc)) (lt_irrefl _)
            · exact le_antisymm hr1 hr2
        cases a
        cases b
        simp only at e1 hc hr
        simp [e1, hc, hr]

/-- What sits at a filesystem location: a regular file with its content
bytes, or a directory given by its recursive listing of regular files. -/
inductive Node where
  | file (content : Bytes)
  | dir (files : List FileEntry)
deriving DecidableEq, Repr

/-- `PathExtractor._calculate_directory_checksum` on what sits at a path.
Digests are modelled by the byte stream fed to SHA-256; the source
returns the empty string `""` when the path is missing or not a
directory, modelled as `none` (a real hex digest is never empty, so the
two sides never compare equal). -/
def calculateDirectoryChecksum : Option Node → Option Bytes
  | some (Node.dir files) => some (checksumStream files)
  | _ => none

/-- The checksum `extract_library` records: the directory checksum when
the destination is a directory, else `hashlib.sha256(f.read())` on the
single file (digest modelled by its input bytes). -/
def extractTimeChecksum : Node → Bytes
  | Node.dir files => checksumStream files
  | Node.file content => content

/-- Split a character list at `/` separators. -/
def splitSlash (cs : List Char) (cur : List Char) : List (List Char) :=
  match cs with
  | [] => [cur.reverse]
  | c :: rest => if c = '/' then cur.reverse :: splitSlash rest [] else splitSlash rest (c :: cur)

/-- Split a POSIX path string into components, dropping empty parts and
lone dots (`PurePosixPath` ignores repeated separators and `.`). -/
def splitPath (s : String) : List String :=
  ((splitSlash s.data []).map String.mk).filter (fun c => c ≠ "" && c ≠ ".")

/-- `Path.is_absolute()` for POSIX paths. -/
def isAbsolutePath (s : String) : Bool :=
  match s.data with
  | c :: _ => c = '/'
  | [] => false

/-- `Path.resolve()` on an absolute path in a symlink-free filesystem:
collapse `..` against the accumulated prefix (at the root, `..` stays at
the root, as POSIX resolution does). -/
def normalizePath (parts : List String) : List String :=
  parts.foldl (fun acc c => if c = ".." then acc.dropLast else acc ++ [c]) []

/-- The resolved project root is a proper ancestor of `p`. -/
def strictlyInside (root p : List String) : Bool :=
  root.isPrefixOf p && decide (root.length < p.length)

/-- Manifest entry. Modelled from the spec: `ImportSpec` lives in
`analog_hub/core/config.py`, which is not among the sources; the fields
are the ones §3 of the spec lists and the extractor and installer read
(`repo`, `ref`, `source_path`, optional `local_path`). -/
structure ImportSpec where
  repo : String
  ref : String
  source_path : String
  local_path : Option String
deriving DecidableEq, Repr

/-- `PathExtractor._resolve_local_path`: explicit `local_path` override
(absolute used as-is, relative joined to the project root), else
`project_root / library_root / library_name`; the result is then fully
resolved. `projectRoot` is the already-resolved root, as set in
`PathExtractor.__init__`. The source performs no containment check on
the result. -/
def resolveLocalPath (projectRoot : List String) (libraryName : String)
    (spec : ImportSpec) (libraryRoot : String) : List String :=
  match spec.local_path with
  | some lp =>
    if isAbsolutePath lp then normalizePath (splitPath lp)
    else normalizePath (projectRoot ++ splitPath lp)
  | none => normalizePath (projectRoot ++ splitPath libraryRoot ++ [libraryName])

/-- Steps of `extract_library` that touch the destination, in the order
the source performs them. -/
inductive EEvent where
  | removeDest    -- rmtree/unlink of a pre-existing destination (lines 150-154)
  | copyTree      -- shutil.copytree / shutil.copy2 (lines 161-171)
  | checksumCalc  -- checksum of the extracted content (lines 174-178)
  | writeMeta     -- metadata.to_yaml(metadata_path) (lines 196-202)
  | cleanupDest   -- the except-block deletion of the destination (lines 207-212)
deriving DecidableEq, Repr

/-- Errors `extract_library` can propagate. -/
inductive ExtractErr where
  | fileNotFound  -- source_path missing: raised before the destination is touched
  | ioError       -- any exception inside the try block, re-raised after cleanup:
                  -- an OSError from copy/checksum/metadata-write, or the ValueError
                  -- that local_path.relative_to(project_root) (line 189) raises
                  -- when the resolved destination lies outside the project root
deriving DecidableEq, Repr

/-- Environment of one `extract_library` call: what sits at
`mirror_path/source_path` and at the resolved destination, the content
of the metadata file the call writes, and the outcome of each
externally-effectful step of the try block (`true` = the step does not
raise). -/
structure ExtractCtx where
  projectRoot : List String
  libraryRoot : String
  source : Option Node
  destBefore : Option Node
  metaContent : Bytes
  copyOk : Bool
  checksumOk : Bool
  metaOk : Bool
deriving DecidableEq, Repr

/-- Outcome of one `extract_library` call. -/
structure ExtractOut where
  result : Option ExtractErr   -- `none` = metadata returned normally
  destPath : List String       -- resolved destination all writes go to
  destAfter : Option Node      -- what sits at `destPath` when the call ends
  recorded : Option Bytes      -- checksum recorded in the returned metadata
  events : List EEvent
deriving DecidableEq, Repr

/-- `PathExtractor.extract_library`. The destination is resolved with
`_resolve_local_path` (no containment check); a missing source raises
`FileNotFoundError` before any mutation; a pre-existing destination is
deleted (lines 150-154, before the try, so the cleanup never restores
it); the try block copies the subtree, computes the checksum of the
copy, constructs the metadata record — whose
`local_path.relative_to(self.project_root)` (line 189) raises
`ValueError` whenever the resolved destination is not under the project
root — and then writes the metadata file (into the directory, or
alongside a single file); any exception inside the try block deletes the
destination and re-raises. -/
def extract_library_model (libraryName : String) (spec : ImportSpec)
    (ctx : ExtractCtx) : ExtractOut :=
  let dest := resolveLocalPath ctx.projectRoot libraryName spec ctx.libraryRoot
  match ctx.source with
  | none => ⟨some ExtractErr.fileNotFound, dest, ctx.destBefore, none, []⟩
  | some src =>
    let ev0 : List EEvent := if ctx.destBefore.isSome then [EEvent.removeDest] else []
    if !ctx.copyOk then
      ⟨some ExtractErr.ioError, dest, none, none,
        ev0 ++ [EEvent.copyTree, EEvent.cleanupDest]⟩
    else if !ctx.checksumOk then
      ⟨some ExtractErr.ioError, dest, none, none,
        ev0 ++ [EEvent.copyTree, EEvent.checksumCalc, EEvent.cleanupDest]⟩
    else if !(ctx.projectRoot.isPrefixOf dest) then
      -- metadata construction: relative_to(project_root) raises ValueError,
      -- caught by the except block after the copy already happened
      ⟨some ExtractErr.ioError, dest, none, none,
        ev0 ++ [EEvent.copyTree, EEvent.checksumCalc, EEvent.cleanupDest]⟩
    else if !ctx.metaOk then
      ⟨some ExtractErr.ioError, dest, none, none,
        ev0 ++ [EEvent.copyTree, EEvent.checksumCalc, EEvent.writeMeta, EEvent.cleanupDest]⟩
    else
      let destFinal : Node :=
        match src with
        | Node.dir files => Node.dir (files ++ [⟨metaFileName, ctx.metaContent, true⟩])
        | Node.file content => Node.file content
      ⟨none, dest, some destFinal, some (extractTimeChecksum src),
        ev0 ++ [EEvent.copyTree, EEvent.checksumCalc, EEvent.writeMeta]⟩

/-- Lock entry as `LibraryInstaller.install_library` builds it.
Modelled from the spec: `LockEntry` lives in `analog_hub/core/config.py`,
which is not among the sources; the fields are the ones the installer
constructs and reads. `installed_at` abstracts the `datetime.now()`
timestamp string as a tick. -/
structure LockEntry where
  repo : String
  ref : String
  commit : String
  source_path : String
  local_path : String
  checksum : Option Bytes
  installed_at : Nat
deriving DecidableEq, Repr

/-- Per-entry outcome of `LibraryInstaller.validate_installation`. -/
inductive VStatus where
  | valid
  | dirNotFound       -- "library directory not found"
  | metadataMissing   -- "metadata file missing"
  | checksumMismatch  -- "checksum mismatch (modified?)"
deriving DecidableEq, Repr

/-- One iteration of `LibraryInstaller.validate_installation` (lines
314-341): check the library path exists, check
`library_path / ".analog-hub-meta.yaml"` exists (for a single-file
library that child path never exists), then compare
`_calculate_directory_checksum(library_path)` with the lock entry's
checksum. -/
def validateEntry (destNode : Option Node) (entry : LockEntry) : VStatus :=
  match destNode with
  | none => VStatus.dirNotFound
  | some node =>
    let metaThere : Bool :=
      match node with
      | Node.dir files => files.any (fun e => e.relpath == metaFileName)
      | Node.file _ => false
    if !metaThere then VStatus.metadataMissing
    else if calculateDirectoryChecksum (some node) == entry.checksum then VStatus.valid
    else VStatus.checksumMismatch

/-- Error kinds `update_mirror` / `create_mirror` can surface, plus the
`InvalidURL` kind the spec prescribes. The spec's kind is included so
the rejection property is statable; no code path in
`analog_hub/core/mirror.py` constructs it — the module contains no URL
validation at all. -/
inductive MirrorErr where
  | invalidURL   -- spec §4.4 kind; never raised by this source
  | refNotFound  -- ValueError "Reference '...' not found in repository"
  | gitCommand   -- git.GitCommandError
  | timeout      -- GitOperationTimeout
  | osError      -- OSError from shutil operations
deriving DecidableEq, Repr

/-- Externally visible operations of the mirror module, in program
order. `fsCheckMirror` is filesystem I/O (`mirror_path.exists()` plus
`git.Repo(mirror_path)` inside `mirror_exists`); `cloneRepo` and
`fetchOrigin` are network I/O. -/
inductive GitEffect where
  | fsCheckMirror
  | cloneRepo
  | localResolve
  | fetchOrigin
  | checkoutRef
  | moveIntoPlace
  | writeSidecar
  | removeMirrorDir
deriving DecidableEq, Repr

/-- Sidecar metadata (`MirrorMetadata`), timestamps abstracted to ticks. -/
structure MirrorMeta where
  repo_url : String
  current_ref : String
  resolved_commit : String
  created_at : Nat
  updated_at : Nat
deriving DecidableEq, Repr

/-- On-disk state of one mirror directory. -/
structure MirrorDirState where
  dirOnDisk : Bool
  validRepo : Bool
deriving DecidableEq, Repr

/-- `RepositoryMirror.mirror_exists`: the directory exists and opens as
a valid git repository. -/
def mirror_exists_model (d : MirrorDirState) : Bool :=
  d.dirOnDisk && d.validRepo

/-- Exceptions a git or filesystem step can raise:
`git.GitCommandError`, `GitOperationTimeout`, the "Reference not found"
`ValueError`, or `OSError`. `InvalidURL` is not among them — only a URL
validator could raise that kind, and this module has none. -/
inductive StepErr where
  | gitCommand
  | timeout
  | refNotFound
  | osError
deriving DecidableEq, Repr

/-- The error kind a raised step exception surfaces as. -/
def StepErr.toMirror : StepErr → MirrorErr
  | StepErr.gitCommand => MirrorErr.gitCommand
  | StepErr.timeout => MirrorErr.timeout
  | StepErr.refNotFound => MirrorErr.refNotFound
  | StepErr.osError => MirrorErr.osError

/-- Environment of one `create_mirror` call: whether the mirror path
already exists, the outcome of each step of the try block (`none` /
`true` = the step does not raise), the commit the checkout resolves to,
and the clock. -/
structure CreateWorld where
  preExists : Bool
  cloneErr : Option StepErr
  checkoutErr : Option StepErr
  resolvedCommit : String
  moveOk : Bool
  sidecarOk : Bool
  now : Nat
deriving DecidableEq, Repr

/-- Outcome of `create_mirror` / `update_mirror`. -/
structure MirrorOut where
  result : Option MirrorErr   -- `none` = metadata returned normally
  meta : Option MirrorMeta
  dir : MirrorDirState        -- state of the mirror directory afterwards
  effects : List GitEffect
deriving DecidableEq, Repr

/-- `RepositoryMirror.create_mirror` (lines 181-251): delete a
pre-existing mirror directory, `mkdir` it, then inside the try block
clone into a temp dir, checkout `ref`, move the clone into place and
write the sidecar; on any exception the except block deletes the mirror
directory and re-raises. No URL validation happens anywhere. -/
def create_mirror_model (url ref : String) (w : CreateWorld) : MirrorOut :=
  let ev0 : List GitEffect := if w.preExists then [GitEffect.removeMirrorDir] else []
  match w.cloneErr with
  | some e =>
    ⟨some e.toMirror, none, ⟨false, false⟩,
      ev0 ++ [GitEffect.cloneRepo, GitEffect.removeMirrorDir]⟩
  | none =>
    match w.checkoutErr with
    | some e =>
      ⟨some e.toMirror, none, ⟨false, false⟩,
        ev0 ++ [GitEffect.cloneRepo, GitEffect.checkoutRef, GitEffect.removeMirrorDir]⟩
    | none =>
      if !w.moveOk then
        ⟨some MirrorErr.osError, none, ⟨false, false⟩,
          ev0 ++ [GitEffect.cloneRepo, GitEffect.checkoutRef, GitEffect.moveIntoPlace,
            GitEffect.removeMirrorDir]⟩
      else if !w.sidecarOk then
        ⟨some MirrorErr.osError, none, ⟨false, false⟩,
          ev0 ++ [GitEffect.cloneRepo, GitEffect.checkoutRef, GitEffect.moveIntoPlace,
            GitEffect.writeSidecar, GitEffect.removeMirrorDir]⟩
      else
        ⟨none, some ⟨url, ref, w.resolvedCommit, w.now, w.now⟩, ⟨true, true⟩,
          ev0 ++ [GitEffect.cloneRepo, GitEffect.checkoutRef, GitEffect.moveIntoPlace,
            GitEffect.writeSidecar]⟩

/-- Environment of one `update_mirror` call on top of `CreateWorld` for
the fresh-clone fallback: sidecar readable?, local ref resolution before
and after fetch, fetch/checkout outcomes, current HEAD, clock. -/
structure UpdateWorld where
  mirrorValid : Bool             -- mirror_exists(url) on entry
  sidecar : Option MirrorMeta    -- get_mirror_metadata(url)
  localCommit : Option String    -- repo.commit(ref) before any fetch
  fetchErr : Option StepErr
  localCommitAfterFetch : Option String
  headCommit : String            -- repo.head.commit before checkout
  checkoutErr : Option StepErr
  sidecarOk : Bool
  createW : CreateWorld          -- world for the fallback create_mirror
  now : Nat
deriving DecidableEq, Repr

/-- `RepositoryMirror.update_mirror` (lines 270-334). It starts by
reading the sidecar and probing the mirror (filesystem I/O before
anything else); with no valid mirror it delegates to `create_mirror`;
otherwise it resolves `ref` locally, fetching if needed, and checks the
target out. Any exception inside the try block — including the
"Reference not found after fetch" ValueError — is swallowed by the
except block, which falls back to a fresh `create_mirror`. There is no
URL validation on any path. -/
def update_mirror_model (url ref : String) (w : UpdateWorld) : MirrorOut :=
  -- get_mirror_metadata(url) and the mirror_exists(url) guard both probe the filesystem
  let ev0 : List GitEffect := [GitEffect.fsCheckMirror]
  if !w.mirrorValid then
    let c := create_mirror_model url ref w.createW
    ⟨c.result, c.meta, c.dir, ev0 ++ c.effects⟩
  else
    let fallback (evs : List GitEffect) : MirrorOut :=
      let c := create_mirror_model url ref w.createW
      ⟨c.result, c.meta, c.dir, ev0 ++ evs ++ c.effects⟩
    let finish (resolved : String) (evs : List GitEffect) : MirrorOut :=
      let evs2 := evs ++ (if w.headCommit ≠ resolved then [GitEffect.checkoutRef] else [])
      if w.headCommit ≠ resolved ∧ w.checkoutErr.isSome then
        fallback evs2
      else if !w.sidecarOk then
        fallback (evs2 ++ [GitEffect.writeSidecar])
      else
        let createdAt := match w.sidecar with
          | some m => m.created_at
          | none => w.now
        ⟨none, some ⟨url, ref, resolved, createdAt, w.now⟩, ⟨true, true⟩,
          ev0 ++ evs2 ++ [GitEffect.writeSidecar]⟩
    match w.localCommit with
    | some resolved => finish resolved [GitEffect.localResolve]
    | none =>
      if w.fetchErr.isSome then
        fallback [GitEffect.localResolve, GitEffect.fetchOrigin]
      else
        match w.localCommitAfterFetch with
        | some resolved =>
          finish resolved [GitEffect.localResolve, GitEffect.fetchOrigin, GitEffect.localResolve]
        | none =>
          -- ValueError "not found after fetch", caught by the except block
          fallback [GitEffect.localResolve, GitEffect.fetchOrigin, GitEffect.localResolve]

/-- URL predicate from the spec used to state the claim: the URL holds a
shell metacharacter — `;` `|` `&` backtick `$` `~` or a newline
(code points 59, 124, 38, 96, 36, 126, 10). -/
def hasShellMetachar (url : String) : Bool :=
  url.toList.any (fun c => c.toNat == 59 || c.toNat == 124 || c.toNat == 38 ||
    c.toNat == 96 || c.toNat == 36 || c.toNat == 126 || c.toNat == 10)

/-- Manifest (`AnalogHubConfig`). Modelled from the spec: the config
class lives in `analog_hub/core/config.py`, which is not among the
sources; `imports` is an insertion-ordered mapping, modelled as an
association list in manifest order. -/
structure Manifest where
  library_root : String
  imports : List (String × ImportSpec)
deriving DecidableEq, Repr

/-- Lockfile (`LockFile`): `library_root` plus name → entry mapping in
insertion order. -/
structure LockFileM where
  library_root : String
  libraries : List (String × LockEntry)
deriving DecidableEq, Repr

/-- Python `dict.update`: existing keys keep their position and take the
new value; new keys are appended in batch order. -/
def updateAssoc (base upd : List (String × LockEntry)) : List (String × LockEntry) :=
  (base.map (fun p =>
    match upd.find? (fun q => q.1 == p.1) with
    | some q => (p.1, q.2)
    | none => p)) ++
  upd.filter (fun q => !(base.any (fun p => p.1 == q.1)))

/-- Result of `install_all`. -/
inductive InstallResult where
  | missingLibs (missing : List String)  -- "Libraries not found in configuration"
  | batchFailed (failed : List String)   -- "Failed to install N libraries" summary
  | ok (installed : List (String × LockEntry))
deriving DecidableEq, Repr

/-- Outcome of one `install_all` call. `processed` lists the libraries
for which `install_library` was invoked (each such call runs
`update_mirror` and `extract_library`); `lockWritten` is the lockfile
handed to `save_lock_file`, when that call is reached. -/
structure InstallAllOut where
  result : InstallResult
  processed : List String
  lockWritten : Option LockFileM
deriving DecidableEq, Repr

/-- The per-library loop of `install_all` (lines 162-174): in manifest
order, run `install_library`; a success goes into `installed_libraries`,
an exception is recorded in `failed_libraries` and the loop continues.
`runLib` is the outcome of `install_library` for each library (`none` =
it raised). -/
def runBatch (runLib : String → ImportSpec → Option LockEntry) :
    List (String × ImportSpec) →
    List (String × LockEntry) × List String × List String
  | [] => ([], [], [])
  | (name, spec) :: rest =>
    let (inst, failed, processed) := runBatch runLib rest
    match runLib name spec with
    | some entry => ((name, entry) :: inst, failed, name :: processed)
    | none => (inst, name :: failed, name :: processed)

/-- `LibraryInstaller.install_all` (lines 125-187): select the libraries
(all of `config.imports`, or the named subset, erroring on names absent
from the configuration), run the batch, and then — only if no library
failed — merge the installed entries into the lockfile and save it. When
any library failed, `InstallationError` is raised *before* the lockfile
update, so `save_lock_file` is never reached. -/
def install_all_model (config : Manifest) (names : Option (List String))
    (runLib : String → ImportSpec → Option LockEntry)
    (lockDisk : LockFileM) : InstallAllOut :=
  let selected : List (String × ImportSpec) :=
    match names with
    | none => config.imports
    | some sel => config.imports.filter (fun p => sel.contains p.1)
  let missing : List String :=
    match names with
    | none => []
    | some sel => sel.filter (fun n => !(config.imports.any (fun p => p.1 == n)))
  if missing ≠ [] then
    ⟨InstallResult.missingLibs missing, [], none⟩
  else if selected = [] then
    ⟨InstallResult.ok [], [], none⟩
  else
    let (inst, failed, processed) := runBatch runLib selected
    if failed ≠ [] then
      ⟨InstallResult.batchFailed failed, processed, none⟩
    else
      ⟨InstallResult.ok inst, processed,
        some ⟨config.library_root, updateAssoc lockDisk.libraries inst⟩⟩

/-- The Python exception `clean_unused_mirrors` actually hits. -/
inductive PyErr where
  | typeError  -- string indices must be integers
deriving DecidableEq, Repr

/-- Result of `clean_unused_mirrors`: either an uncaught exception or
the list of removed mirror paths. -/
inductive CleanOut where
  | raised (e : PyErr)
  | finished (removed : List String)
deriving DecidableEq, Repr

/-- `RepositoryMirror.list_mirrors` (lines 351-375): a dict mapping each
readable sidecar's `repo_url` to its metadata, one candidate per
subdirectory of the mirror root (unreadable sidecars skipped). -/
def list_mirrors_model (sidecars : List (Option MirrorMeta)) :
    List (String × MirrorMeta) :=
  (sidecars.filterMap id).map (fun m => (m.repo_url, m))

/-- Python `some_str[key]` with a string key: `str` only accepts integer
indices, so this unconditionally raises `TypeError`. -/
def pyStrGetItem (_s _key : String) : Option String :=
  none

/-- The loop of `clean_unused_mirrors` (lines 360-367). Iterating the
dict returned by `list_mirrors` yields its *keys* — plain URL strings —
so the first body expression `mirror_info['repo_url']` subscripts a
`str` with a string key and raises `TypeError`; the membership test,
`remove_mirror` call and `mirror_info['mirror_path']` append behind it
are unreachable. -/
def cleanLoop (usedRepos : List String) :
    List String → List String → CleanOut
  | [], removed => CleanOut.finished removed.reverse
  | k :: ks, removed =>
    match pyStrGetItem k "repo_url" with
    | none => CleanOut.raised PyErr.typeError
    | some url =>
      if usedRepos.contains url then cleanLoop usedRepos ks removed
      else cleanLoop usedRepos ks (k :: removed)

/-- `LibraryInstaller.clean_unused_mirrors` (lines 344-369): collect the
repo URLs the lock entries use, list the existing mirrors, and loop over
them removing the unreferenced ones. -/
def clean_unused_mirrors_model (lockLibs : List (String × LockEntry))
    (sidecars : List (Option MirrorMeta)) : CleanOut :=
  let usedRepos : List String := lockLibs.map (fun p => p.2.repo)
  let keys : List String := (list_mirrors_model sidecars).map (fun p => p.1)
  cleanLoop usedRepos keys []

theorem sortedFiles_perm_eq {X Y : List FileEntry}
    (h : (filterMeta X).Perm (filterMeta Y)) : sortedFiles X = sortedFiles Y :=
  List.eq_of_perm_of_sorted
    ((List.perm_insertionSort entryLe (filterMeta X)).trans
      (h.trans (List.perm_insertionSort entryLe (filterMeta Y)).symm))
    (List.sorted_insertionSort entryLe (filterMeta X))
    (List.sorted_insertionSort entryLe (filterMeta Y))

theorem isMetaFile_metaEntry (c : Bytes) (r : Bool) :
    isMetaFile ⟨metaFileName, c, r⟩ = true := rfl

theorem filterMeta_append_meta (xs : List FileEntry) (m : FileEntry)
    (hm : isMetaFile m = true) : filterMeta (xs ++ [m]) = filterMeta xs := by
  simp [filterMeta, List.filter_append, hm]

theorem checksumStream_append_meta (xs : List FileEntry) (m : FileEntry)
    (hm : isMetaFile m = true) : checksumStream (xs ++ [m]) = checksumStream xs := by
  unfold checksumStream sortedFiles
  rw [filterMeta_append_meta xs m hm]

/-- C8: if two directory listings hold byte-identical regular files at
identical relative paths once the tool's metadata files are excluded
(the filtered listings are permutations of each other), then
`_calculate_directory_checksum` feeds SHA-256 the same byte stream, so
the checksums agree. This is the true direction of the claim; the
converse fails — see the counterexample. -/
theorem checksum_respects_contents (X Y : List FileEntry)
    (h : (filterMeta X).Perm (filterMeta Y)) :
    checksumStream X = checksumStream Y := by
  unfold checksumStream
  rw [sortedFiles_perm_eq h]

/-- C8 witness: the stream is invariant under reordering a two-file
listing. -/
theorem checksum_respects_contents_witness :
    (filterMeta [⟨[97], [1], true⟩, ⟨[98], [2], true⟩]).Perm
        (filterMeta [⟨[98], [2], true⟩, ⟨[97], [1], true⟩]) ∧
      checksumStream [⟨[97], [1], true⟩, ⟨[98], [2], true⟩] =
        checksumStream [⟨[98], [2], true⟩, ⟨[97], [1], true⟩] :=
  ⟨by decide, checksum_respects_contents _ _ (by decide)⟩

/-- C8 counterexample: the claimed equivalence is an iff, but the stream
concatenates relative-path bytes and content bytes with no separator, so
the directory holding one empty file named `ab` and the directory
holding a file named `a` with content `b` feed SHA-256 the identical
stream and get equal checksums while their filtered contents differ
(different paths, different contents). -/
theorem checksum_collision_distinct_contents :
    checksumStream [⟨[97, 98], [], true⟩] = checksumStream [⟨[97], [98], true⟩] ∧
      List.isPerm (filterMeta [⟨[97, 98], [], true⟩]) (filterMeta [⟨[97], [98], true⟩]) = false :=
  ⟨by decide, by decide⟩

/-- C7: for a library whose extracted destination is a directory,
recomputing the directory checksum with the same metadata-exclusion
filter returns exactly the checksum stored in the lock entry, so the
`validate_installation` loop reports the library valid immediately after
a successful extraction. (For a single-file library this fails — see the
counterexample.) -/
theorem extract_then_validate_dir_valid (name : String) (spec : ImportSpec)
    (ctx : ExtractCtx) (files : List FileEntry) (entry : LockEntry)
    (hsrc : ctx.source = some (Node.dir files))
    (hok : (extract_library_model name spec ctx).result = none)
    (hcs : entry.checksum = (extract_library_model name spec ctx).recorded) :
    validateEntry (extract_library_model name spec ctx).destAfter entry = VStatus.valid := by
  unfold extract_library_model at hok hcs ⊢
  rw [hsrc] at hok hcs ⊢
  by_cases h1 : ctx.copyOk <;> by_cases h2 : ctx.checksumOk <;>
    by_cases hp : ctx.projectRoot.isPrefixOf
      (resolveLocalPath ctx.projectRoot name spec ctx.libraryRoot) <;>
    by_cases h3 : ctx.metaOk <;>
    simp [h1, h2, h3, hp] at hok hcs ⊢
  simp [validateEntry, calculateDirectoryChecksum, hcs, extractTimeChecksum,
    List.any_append, checksumStream_append_meta files _ (isMetaFile_metaEntry ctx.metaContent true)]

/-- C7 witness: a concrete one-file directory round-trips through
extract and validate. -/
theorem extract_then_validate_dir_valid_witness :
    ((⟨["p"], "libs", some (Node.dir [⟨[97], [98], true⟩]), none, [107], true, true,
        true⟩ : ExtractCtx).source = some (Node.dir [⟨[97], [98], true⟩])) ∧
    (extract_library_model "lib" ⟨"r", "main", ".", none⟩
        ⟨["p"], "libs", some (Node.dir [⟨[97], [98], true⟩]), none, [107], true, true,
          true⟩).result = none ∧
    ((⟨"r", "main", "c", ".", "libs/lib", some (checksumStream [⟨[97], [98], true⟩]),
        0⟩ : LockEntry).checksum =
      (extract_library_model "lib" ⟨"r", "main", ".", none⟩
        ⟨["p"], "libs", some (Node.dir [⟨[97], [98], true⟩]), none, [107], true, true,
          true⟩).recorded) ∧
    validateEntry
        (extract_library_model "lib" ⟨"r", "main", ".", none⟩
          ⟨["p"], "libs", some (Node.dir [⟨[97], [98], true⟩]), none, [107], true, true,
            true⟩).destAfter
        ⟨"r", "main", "c", ".", "libs/lib", some (checksumStream [⟨[97], [98], true⟩]), 0⟩ =
      VStatus.valid :=
  ⟨by decide, by decide, by decide,
    extract_then_validate_dir_valid "lib" ⟨"r", "main", ".", none⟩
      ⟨["p"], "libs", some (Node.dir [⟨[97], [98], true⟩]), none, [107], true, true, true⟩
      [⟨[97], [98], true⟩]
      ⟨"r", "main", "c", ".", "libs/lib", some (checksumStream [⟨[97], [98], true⟩]), 0⟩
      (by decide) (by decide) (by decide)⟩

/-- C7 counterexample: a single-file library is extracted successfully
(the lock entry stores the SHA-256 of the file's bytes), but the
`validate_installation` loop then looks for the directory-style child
path `library_path / ".analog-hub-meta.yaml"` — which a regular file
does not have — and reports the freshly installed library as invalid,
not valid. -/
theorem validate_single_file_library_invalid :
    (extract_library_model "filelib" ⟨"r", "main", "f.sch", none⟩
        ⟨["p"], "libs", some (Node.file [104]), none, [9], true, true, true⟩).result = none ∧
    validateEntry
        (extract_library_model "filelib" ⟨"r", "main", "f.sch", none⟩
          ⟨["p"], "libs", some (Node.file [104]), none, [9], true, true, true⟩).destAfter
        ⟨"r", "main", "c", "f.sch", "libs/filelib",
          (extract_library_model "filelib" ⟨"r", "main", "f.sch", none⟩
            ⟨["p"], "libs", some (Node.file [104]), none, [9], true, true, true⟩).recorded,
          0⟩ = VStatus.metadataMissing :=
  ⟨by decide, by decide⟩

/-- C6: in every successful extraction the events at the destination are
(optional pre-delete,) copy, then checksum, then metadata write — the
checksum is computed *before* the provenance file is written, the
reverse of the claimed order; the recorded checksum nevertheless equals
the checksum of the final destination state, because files whose
basename starts with `.analog-hub-meta` are excluded from the stream. -/
theorem extract_event_order_and_stability (name : String) (spec : ImportSpec)
    (ctx : ExtractCtx)
    (hok : (extract_library_model name spec ctx).result = none) :
    (extract_library_model name spec ctx).events =
      (if ctx.destBefore.isSome then [EEvent.removeDest] else []) ++
        [EEvent.copyTree, EEvent.checksumCalc, EEvent.writeMeta] ∧
    ∃ n, (extract_library_model name spec ctx).destAfter = some n ∧
      (extract_library_model name spec ctx).recorded = some (extractTimeChecksum n) := by
  cases hsrc : ctx.source with
  | none =>
    unfold extract_library_model at hok
    rw [hsrc] at hok
    simp at hok
  | some src =>
    unfold extract_library_model at hok ⊢
    rw [hsrc] at hok ⊢
    by_cases h1 : ctx.copyOk <;> by_cases h2 : ctx.checksumOk <;>
      by_cases hp : ctx.projectRoot.isPrefixOf
        (resolveLocalPath ctx.projectRoot name spec ctx.libraryRoot) <;>
      by_cases h3 : ctx.metaOk <;>
      simp [h1, h2, h3, hp] at hok ⊢
    cases src with
    | file c => simp [extractTimeChecksum]
    | dir files =>
      simp [extractTimeChecksum,
        checksumStream_append_meta files _ (isMetaFile_metaEntry ctx.metaContent true)]

/-- C6 witness: a concrete successful extraction with a pre-existing
destination. -/
theorem extract_event_order_and_stability_witness :
    (extract_library_model "lib" ⟨"r", "main", ".", none⟩
        ⟨["p"], "libs", some (Node.dir [⟨[97], [98], true⟩]), some (Node.dir []), [107],
          true, true, true⟩).result = none ∧
    (extract_library_model "lib" ⟨"r", "main", ".", none⟩
        ⟨["p"], "libs", some (Node.dir [⟨[97], [98], true⟩]), some (Node.dir []), [107],
          true, true, true⟩).events =
      (if (some (Node.dir ([] : List FileEntry)) : Option Node).isSome then
          [EEvent.removeDest] else []) ++
        [EEvent.copyTree, EEvent.checksumCalc, EEvent.writeMeta] ∧
    ∃ n, (extract_library_model "lib" ⟨"r", "main", ".", none⟩
        ⟨["p"], "libs", some (Node.dir [⟨[97], [98], true⟩]), some (Node.dir []), [107],
          true, true, true⟩).destAfter = some n ∧
      (extract_library_model "lib" ⟨"r", "main", ".", none⟩
        ⟨["p"], "libs", some (Node.dir [⟨[97], [98], true⟩]), some (Node.dir []), [107],
          true, true, true⟩).recorded = some (extractTimeChecksum n) :=
  ⟨by decide,
    (extract_event_order_and_stability "lib" ⟨"r", "main", ".", none⟩
      ⟨["p"], "libs", some (Node.dir [⟨[97], [98], true⟩]), some (Node.dir []), [107],
        true, true, true⟩ (by decide)).1,
    (extract_event_order_and_stability "lib" ⟨"r", "main", ".", none⟩
      ⟨["p"], "libs", some (Node.dir [⟨[97], [98], true⟩]), some (Node.dir []), [107],
        true, true, true⟩ (by decide)).2⟩

/-- C6 counterexample: in this concrete successful extraction the
checksum event strictly precedes the metadata write, refuting the claim
that the provenance file is on disk before checksumming. -/
theorem extract_checksum_precedes_metadata_write :
    (extract_library_model "lib" ⟨"r", "main", ".", none⟩
        ⟨["p"], "libs", some (Node.dir [⟨[97], [98], true⟩]), none, [107], true, true,
          true⟩).result = none ∧
    (extract_library_model "lib" ⟨"r", "main", ".", none⟩
        ⟨["p"], "libs", some (Node.dir [⟨[97], [98], true⟩]), none, [107], true, true,
          true⟩).events.indexOf EEvent.checksumCalc <
      (extract_library_model "lib" ⟨"r", "main", ".", none⟩
        ⟨["p"], "libs", some (Node.dir [⟨[97], [98], true⟩]), none, [107], true, true,
          true⟩).events.indexOf EEvent.writeMeta :=
  ⟨by decide, by decide⟩

/-- C9: whenever a step inside the try block of `extract_library` raises
(subtree copy, checksum computation, or metadata write), the except
block deletes the destination again before re-raising, so no failed
extraction leaves a partially-written destination: the destination does
not exist afterwards and the last destination event is the cleanup
deletion. -/
theorem extract_failure_cleans_destination (name : String) (spec : ImportSpec)
    (ctx : ExtractCtx)
    (hsrc : ctx.source.isSome = true)
    (hfail : ctx.copyOk = false ∨ ctx.checksumOk = false ∨ ctx.metaOk = false) :
    (extract_library_model name spec ctx).result = some ExtractErr.ioError ∧
    (extract_library_model name spec ctx).destAfter = none ∧
    (extract_library_model name spec ctx).events.getLast? = some EEvent.cleanupDest := by
  cases hs : ctx.source with
  | none => rw [hs] at hsrc; simp at hsrc
  | some src =>
    unfold extract_library_model
    rw [hs]
    by_cases hb : ctx.destBefore.isSome <;>
      rcases hfail with h | h | h <;>
      by_cases h1 : ctx.copyOk <;> by_cases h2 : ctx.checksumOk <;>
      simp_all [apply_ite]

/-- C9 witness: a concrete checksum-step failure cleans up. -/
theorem extract_failure_cleans_destination_witness :
    ((⟨["p"], "libs", some (Node.dir [⟨[97], [98], true⟩]), none, [107], true, false,
        true⟩ : ExtractCtx).source.isSome = true) ∧
    (extract_library_model "lib" ⟨"r", "main", ".", none⟩
        ⟨["p"], "libs", some (Node.dir [⟨[97], [98], true⟩]), none, [107], true, false,
          true⟩).result = some ExtractErr.ioError ∧
    (extract_library_model "lib" ⟨"r", "main", ".", none⟩
        ⟨["p"], "libs", some (Node.dir [⟨[97], [98], true⟩]), none, [107], true, false,
          true⟩).destAfter = none ∧
    (extract_library_model "lib" ⟨"r", "main", ".", none⟩
        ⟨["p"], "libs", some (Node.dir [⟨[97], [98], true⟩]), none, [107], true, false,
          true⟩).events.getLast? = some EEvent.cleanupDest :=
  ⟨by decide,
    extract_failure_cleans_destination "lib" ⟨"r", "main", ".", none⟩
      ⟨["p"], "libs", some (Node.dir [⟨[97], [98], true⟩]), none, [107], true, false, true⟩
      (by decide) (Or.inr (Or.inl (by decide)))⟩

/-- C1: `_resolve_local_path` performs no containment check. For the
manifest entry with `local_path = "../../etc/passwd"` under project root
`/home/user/proj`, the computed destination fully resolves to
`/home/etc/passwd` — outside the project root — and `extract_library`
uses it: it deletes the pre-existing content at that escaped path
(before the try block, so nothing restores it), copies the whole subtree
there, and computes the checksum. Only then does metadata construction's
`local_path.relative_to(self.project_root)` (line 189) raise `ValueError`;
the except block deletes the copy and re-raises. So the escape is never
rejected up front: real writes land at the escaped destination and
pre-existing data outside the root is destroyed, with the error arising
only incidentally after the fact — not the claimed `PathEscape` raised
with nothing written. -/
theorem extractor_writes_outside_project_root :
    resolveLocalPath ["home", "user", "proj"] "evil"
        ⟨"https://github.com/acme/lib.git", "main", ".", some "../../etc/passwd"⟩ "libs" =
      ["home", "etc", "passwd"] ∧
    strictlyInside ["home", "user", "proj"]
        (resolveLocalPath ["home", "user", "proj"] "evil"
          ⟨"https://github.com/acme/lib.git", "main", ".", some "../../etc/passwd"⟩ "libs") =
      false ∧
    (extract_library_model "evil"
        ⟨"https://github.com/acme/lib.git", "main", ".", some "../../etc/passwd"⟩
        ⟨["home", "user", "proj"], "libs", some (Node.dir [⟨[97], [98], true⟩]),
          some (Node.file [1]), [107], true, true, true⟩).destPath =
      ["home", "etc", "passwd"] ∧
    (extract_library_model "evil"
        ⟨"https://github.com/acme/lib.git", "main", ".", some "../../etc/passwd"⟩
        ⟨["home", "user", "proj"], "libs", some (Node.dir [⟨[97], [98], true⟩]),
          some (Node.file [1]), [107], true, true, true⟩).events =
      [EEvent.removeDest, EEvent.copyTree, EEvent.checksumCalc, EEvent.cleanupDest] ∧
    (extract_library_model "evil"
        ⟨"https://github.com/acme/lib.git", "main", ".", some "../../etc/passwd"⟩
        ⟨["home", "user", "proj"], "libs", some (Node.dir [⟨[97], [98], true⟩]),
          some (Node.file [1]), [107], true, true, true⟩).result =
      some ExtractErr.ioError ∧
    (extract_library_model "evil"
        ⟨"https://github.com/acme/lib.git", "main", ".", some "../../etc/passwd"⟩
        ⟨["home", "user", "proj"], "libs", some (Node.dir [⟨[97], [98], true⟩]),
          some (Node.file [1]), [107], true, true, true⟩).destAfter = none :=
  ⟨by decide, by decide, by decide, by decide, by decide, by decide⟩

theorem stepErr_toMirror_ne_invalid (e : StepErr) :
    (some e.toMirror == some MirrorErr.invalidURL) = false := by
  cases e <;> rfl

theorem create_mirror_not_invalid (url ref : String) (w : CreateWorld) :
    ((create_mirror_model url ref w).result == some MirrorErr.invalidURL) = false := by
  unfold create_mirror_model
  cases hc : w.cloneErr with
  | some e => exact stepErr_toMirror_ne_invalid e
  | none =>
    cases hk : w.checkoutErr with
    | some e => exact stepErr_toMirror_ne_invalid e
    | none => by_cases hm : w.moveOk <;> by_cases hs : w.sidecarOk <;> simp [hm, hs]

theorem update_mirror_not_invalid (url ref : String) (w : UpdateWorld) :
    ((update_mirror_model url ref w).result == some MirrorErr.invalidURL) = false := by
  unfold update_mirror_model
  by_cases hv : w.mirrorValid
  swap
  · simp only [hv]
    simpa using create_mirror_not_invalid url ref w.createW
  · simp only [hv]
    cases hl : w.localCommit with
    | none =>
      by_cases hf : w.fetchErr.isSome
      · simpa [hf] using create_mirror_not_invalid url ref w.createW
      · simp only [hf]
        cases ha : w.localCommitAfterFetch with
        | none => simpa using create_mirror_not_invalid url ref w.createW
        | some resolved =>
          by_cases hh : w.headCommit ≠ resolved ∧ w.checkoutErr.isSome <;>
            by_cases hs : w.sidecarOk <;>
            simp [hh, hs, create_mirror_not_invalid url ref w.createW]
    | some resolved =>
      by_cases hh : w.headCommit ≠ resolved ∧ w.checkoutErr.isSome <;>
        by_cases hs : w.sidecarOk <;>
        simp [hh, hs, create_mirror_not_invalid url ref w.createW]

theorem update_mirror_first_effect (url ref : String) (w : UpdateWorld) :
    (update_mirror_model url ref w).effects.head? = some GitEffect.fsCheckMirror := by
  unfold update_mirror_model
  by_cases hv : w.mirrorValid
  swap
  · simp [hv]
  · simp only [hv]
    cases hl : w.localCommit with
    | none =>
      by_cases hf : w.fetchErr.isSome
      · simp [hf]
      · simp only [hf]
        cases ha : w.localCommitAfterFetch with
        | none => simp
        | some resolved =>
          by_cases hh : w.headCommit ≠ resolved ∧ w.checkoutErr.isSome <;>
            by_cases hs : w.sidecarOk <;> simp [hh, hs]
    | some resolved =>
      by_cases hh : w.headCommit ≠ resolved ∧ w.checkoutErr.isSome <;>
        by_cases hs : w.sidecarOk <;> simp [hh, hs]

/-- C2: `update_mirror` performs no URL validation. The URL
`https://github.com/user/repo.git; rm -rf /` contains the shell
metacharacter `;`, yet for every environment (and in fact for every URL)
the call never surfaces the `InvalidURL` kind, and its very first
operation is filesystem I/O (probing the mirror directory) — validation
does not precede I/O because it does not exist. -/
theorem update_mirror_never_raises_invalid_url :
    hasShellMetachar "https://github.com/user/repo.git; rm -rf /" = true ∧
    ∀ (url ref : String) (w : UpdateWorld),
      ((update_mirror_model url ref w).result == some MirrorErr.invalidURL) = false ∧
      (update_mirror_model url ref w).effects.head? = some GitEffect.fsCheckMirror :=
  ⟨by decide, fun url ref w =>
    ⟨update_mirror_not_invalid url ref w, update_mirror_first_effect url ref w⟩⟩

/-- C10: whenever `create_mirror` raises after the mirror directory was
created (clone failure, unresolvable ref, timeout, move or sidecar-write
failure), the except block removes the mirror directory before the
exception propagates: afterwards the directory is gone, `mirror_exists`
is false for that URL, and the last effect is the directory removal. -/
theorem create_mirror_failure_removes_dir (url ref : String) (w : CreateWorld)
    (hfail : (create_mirror_model url ref w).result.isSome = true) :
    (create_mirror_model url ref w).dir = ⟨false, false⟩ ∧
    mirror_exists_model (create_mirror_model url ref w).dir = false ∧
    (create_mirror_model url ref w).effects.getLast? = some GitEffect.removeMirrorDir := by
  unfold create_mirror_model at hfail ⊢
  cases hc : w.cloneErr with
  | some e =>
    by_cases hp : w.preExists <;> simp [hp, mirror_exists_model]
  | none =>
    cases hk : w.checkoutErr with
    | some e =>
      by_cases hp : w.preExists <;> simp [hp, mirror_exists_model]
    | none =>
      rw [hc] at hfail
      rw [hk] at hfail
      by_cases hm : w.moveOk <;> by_cases hs : w.sidecarOk <;>
        by_cases hp : w.preExists <;> simp [hm, hs, hp, mirror_exists_model] at hfail ⊢

/-- C10 witness: a concrete timed-out clone leaves no mirror directory. -/
theorem create_mirror_failure_removes_dir_witness :
    ((create_mirror_model "https://github.com/acme/lib.git" "main"
        ⟨false, some StepErr.timeout, none, "c", true, true, 0⟩).result.isSome = true) ∧
    (create_mirror_model "https://github.com/acme/lib.git" "main"
        ⟨false, some StepErr.timeout, none, "c", true, true, 0⟩).dir = ⟨false, false⟩ ∧
    mirror_exists_model (create_mirror_model "https://github.com/acme/lib.git" "main"
        ⟨false, some StepErr.timeout, none, "c", true, true, 0⟩).dir = false ∧
    (create_mirror_model "https://github.com/acme/lib.git" "main"
        ⟨false, some StepErr.timeout, none, "c", true, true, 0⟩).effects.getLast? =
      some GitEffect.removeMirrorDir :=
  ⟨by decide,
    create_mirror_failure_removes_dir "https://github.com/acme/lib.git" "main"
      ⟨false, some StepErr.timeout, none, "c", true, true, 0⟩ (by decide)⟩

theorem runBatch_spec (runLib : String → ImportSpec → Option LockEntry) :
    ∀ libs : List (String × ImportSpec),
      runBatch runLib libs =
        (libs.filterMap (fun p => (runLib p.1 p.2).map (fun e => (p.1, e))),
          (libs.filter (fun p => (runLib p.1 p.2).isNone)).map (fun p => p.1),
          libs.map (fun p => p.1))
  | [] => rfl
  | (name, spec) :: rest => by
    have ih := runBatch_spec runLib rest
    cases h : runLib name spec <;>
      simp [runBatch, ih, h, List.filterMap_cons, List.filter_cons]

/-- C3: when some libraries in the batch fail, `install_all` does keep
going past each failure and raises `InstallationError` naming all the
failed libraries at the end — but the raise happens *before* the
lockfile update, so `save_lock_file` is never reached and the on-disk
lockfile keeps none of the batch's entries, successful or not. Only a
fully successful batch writes the lockfile (merging its entries over the
existing ones). -/
theorem install_all_batch_failure_semantics (config : Manifest)
    (runLib : String → ImportSpec → Option LockEntry) (lockDisk : LockFileM)
    (hne : config.imports ≠ [])
    (hfail : config.imports.filter (fun p => (runLib p.1 p.2).isNone) ≠ []) :
    (install_all_model config none runLib lockDisk).result =
      InstallResult.batchFailed
        ((config.imports.filter (fun p => (runLib p.1 p.2).isNone)).map (fun p => p.1)) ∧
    (install_all_model config none runLib lockDisk).processed =
      config.imports.map (fun p => p.1) ∧
    (install_all_model config none runLib lockDisk).lockWritten = none := by
  unfold install_all_model
  simp only [runBatch_spec]
  have hmap : (config.imports.filter (fun p => (runLib p.1 p.2).isNone)).map
      (fun p => p.1) ≠ [] := by
    simpa using hfail
  simp [hne, hmap]

/-- C3 witness: library `liba` fails, `libb` succeeds; the batch
continues, the error summarizes the failure, and nothing is written. -/
theorem install_all_batch_failure_semantics_witness :
    (install_all_model
        ⟨"libs", [("liba", ⟨"ra", "main", ".", none⟩), ("libb", ⟨"rb", "main", ".", none⟩)]⟩
        none
        (fun n _ => if n = "liba" then none
          else some ⟨"rb", "main", "c", ".", "libs/libb", some [1], 1⟩)
        ⟨"libs", []⟩).result =
      InstallResult.batchFailed
        (((⟨"libs", [("liba", ⟨"ra", "main", ".", none⟩),
            ("libb", ⟨"rb", "main", ".", none⟩)]⟩ : Manifest).imports.filter
          (fun p => ((fun n (_ : ImportSpec) => if n = "liba" then none
            else some (⟨"rb", "main", "c", ".", "libs/libb", some [1],
              1⟩ : LockEntry)) p.1 p.2).isNone)).map (fun p => p.1)) ∧
    (install_all_model
        ⟨"libs", [("liba", ⟨"ra", "main", ".", none⟩), ("libb", ⟨"rb", "main", ".", none⟩)]⟩
        none
        (fun n _ => if n = "liba" then none
          else some ⟨"rb", "main", "c", ".", "libs/libb", some [1], 1⟩)
        ⟨"libs", []⟩).processed = ["liba", "libb"] ∧
    (install_all_model
        ⟨"libs", [("liba", ⟨"ra", "main", ".", none⟩), ("libb", ⟨"rb", "main", ".", none⟩)]⟩
        none
        (fun n _ => if n = "liba" then none
          else some ⟨"rb", "main", "c", ".", "libs/libb", some [1], 1⟩)
        ⟨"libs", []⟩).lockWritten = none :=
  install_all_batch_failure_semantics
    ⟨"libs", [("liba", ⟨"ra", "main", ".", none⟩), ("libb", ⟨"rb", "main", ".", none⟩)]⟩
    (fun n _ => if n = "liba" then none
      else some ⟨"rb", "main", "c", ".", "libs/libb", some [1], 1⟩)
    ⟨"libs", []⟩ (by decide) (by decide)

/-- C3 counterexample: with `liba` failing and `libb` succeeding, the
claim says the on-disk lockfile ends up holding exactly `libb`'s entry;
in fact `install_all` raises the summary error before the lockfile save,
so no lockfile is written at all (`lockWritten = none`) even though
`libb` installed fine. -/
theorem install_all_partial_failure_drops_successes :
    install_all_model
        ⟨"libs", [("liba", ⟨"ra", "main", ".", none⟩), ("libb", ⟨"rb", "main", ".", none⟩)]⟩
        none
        (fun n _ => if n = "libb" then some ⟨"rb", "main", "c", ".", "libs/libb", some [1], 1⟩
          else none)
        ⟨"libs", []⟩ =
      ⟨InstallResult.batchFailed ["liba"], ["liba", "libb"], none⟩ := by
  decide

/-- C4: `install_all` has no up-to-date check: whenever every selected
library installs successfully, every library in the manifest is
processed (each one re-runs `update_mirror` and `extract_library`) and
the lockfile is rewritten, regardless of what the on-disk lockfile
already contains. No `Skip` action exists in this code. -/
theorem install_all_no_skip (config : Manifest)
    (runLib : String → ImportSpec → Option LockEntry) (lockDisk : LockFileM)
    (hall : config.imports.filter (fun p => (runLib p.1 p.2).isNone) = [])
    (hne : config.imports ≠ []) :
    (install_all_model config none runLib lockDisk).processed =
      config.imports.map (fun p => p.1) ∧
    (install_all_model config none runLib lockDisk).result =
      InstallResult.ok
        (config.imports.filterMap (fun p => (runLib p.1 p.2).map (fun e => (p.1, e)))) ∧
    (install_all_model config none runLib lockDisk).lockWritten =
      some ⟨config.library_root,
        updateAssoc lockDisk.libraries
          (config.imports.filterMap (fun p => (runLib p.1 p.2).map (fun e => (p.1, e))))⟩ := by
  unfold install_all_model
  simp only [runBatch_spec]
  simp [hne, hall]

/-- C4 witness: one library, all successful — it is processed (not
skipped) and the lockfile rewritten. -/
theorem install_all_no_skip_witness :
    (install_all_model ⟨"libs", [("lib1", ⟨"r", "main", ".", none⟩)]⟩ none
        (fun _ _ => some ⟨"r", "main", "c", ".", "libs/lib1", some [5], 2⟩)
        ⟨"libs", [("lib1", ⟨"r", "main", "c", ".", "libs/lib1", some [5], 1⟩)]⟩).processed =
      ["lib1"] ∧
    (install_all_model ⟨"libs", [("lib1", ⟨"r", "main", ".", none⟩)]⟩ none
        (fun _ _ => some ⟨"r", "main", "c", ".", "libs/lib1", some [5], 2⟩)
        ⟨"libs", [("lib1", ⟨"r", "main", "c", ".", "libs/lib1", some [5], 1⟩)]⟩).result =
      InstallResult.ok
        (((⟨"libs", [("lib1", ⟨"r", "main", ".", none⟩)]⟩ : Manifest).imports.filterMap
          (fun p => ((fun (_ : String) (_ : ImportSpec) =>
            some (⟨"r", "main", "c", ".", "libs/lib1", some [5], 2⟩ : LockEntry)) p.1
              p.2).map (fun e => (p.1, e))))) ∧
    (install_all_model ⟨"libs", [("lib1", ⟨"r", "main", ".", none⟩)]⟩ none
        (fun _ _ => some ⟨"r", "main", "c", ".", "libs/lib1", some [5], 2⟩)
        ⟨"libs", [("lib1", ⟨"r", "main", "c", ".", "libs/lib1", some [5], 1⟩)]⟩).lockWritten =
      some ⟨"libs",
        updateAssoc [("lib1", ⟨"r", "main", "c", ".", "libs/lib1", some [5], 1⟩)]
          (((⟨"libs", [("lib1", ⟨"r", "main", ".", none⟩)]⟩ : Manifest).imports.filterMap
            (fun p => ((fun (_ : String) (_ : ImportSpec) =>
              some (⟨"r", "main", "c", ".", "libs/lib1", some [5], 2⟩ : LockEntry)) p.1
                p.2).map (fun e => (p.1, e)))))⟩ :=
  install_all_no_skip ⟨"libs", [("lib1", ⟨"r", "main", ".", none⟩)]⟩
    (fun _ _ => some ⟨"r", "main", "c", ".", "libs/lib1", some [5], 2⟩)
    ⟨"libs", [("lib1", ⟨"r", "main", "c", ".", "libs/lib1", some [5], 1⟩)]⟩
    (by decide) (by decide)

/-- C4 counterexample: a second `install_all` run with an unchanged
manifest and a lockfile that already records the library still
re-processes it — the returned set is not empty, the library is
re-mirrored and re-extracted, and the lockfile is rewritten with a fresh
`installed_at` timestamp, so the two lockfiles are not byte-identical. -/
theorem install_all_second_run_reprocesses :
    (install_all_model ⟨"libs", [("lib1", ⟨"r", "main", ".", none⟩)]⟩ none
        (fun _ _ => some ⟨"r", "main", "c", ".", "libs/lib1", some [5], 1⟩)
        ⟨"libs", []⟩).lockWritten =
      some ⟨"libs", [("lib1", ⟨"r", "main", "c", ".", "libs/lib1", some [5], 1⟩)]⟩ ∧
    install_all_model ⟨"libs", [("lib1", ⟨"r", "main", ".", none⟩)]⟩ none
        (fun _ _ => some ⟨"r", "main", "c", ".", "libs/lib1", some [5], 2⟩)
        ⟨"libs", [("lib1", ⟨"r", "main", "c", ".", "libs/lib1", some [5], 1⟩)]⟩ =
      ⟨InstallResult.ok [("lib1", ⟨"r", "main", "c", ".", "libs/lib1", some [5], 2⟩)],
        ["lib1"],
        some ⟨"libs", [("lib1", ⟨"r", "main", "c", ".", "libs/lib1", some [5], 2⟩)]⟩⟩ ∧
    ((some (⟨"libs", [("lib1", ⟨"r", "main", "c", ".", "libs/lib1", some [5],
        2⟩)]⟩ : LockFileM) : Option LockFileM) ==
      some (⟨"libs", [("lib1", ⟨"r", "main", "c", ".", "libs/lib1", some [5],
        1⟩)]⟩ : LockFileM)) = false := by
  refine ⟨by decide, by decide, by decide⟩

/-- C5: `clean_unused_mirrors` crashes whenever at least one mirror
exists. `list_mirrors` returns a dict mapping repo URL to metadata, but
the loop iterates that dict directly — yielding plain URL strings — and
immediately subscripts each string with `['repo_url']`, which raises
`TypeError`. Here the single existing mirror is referenced by the lock
entry (so nothing should be removed and the call should succeed); the
call still raises instead of completing. With no mirrors on disk it
returns the empty removal list. -/
theorem clean_unused_mirrors_type_error :
    clean_unused_mirrors_model
        [("lib1", ⟨"https://github.com/a/b", "main", "c", ".", "libs/lib1", some [1], 0⟩)]
        [some ⟨"https://github.com/a/b", "main", "c", 0, 0⟩] =
      CleanOut.raised PyErr.typeError ∧
    clean_unused_mirrors_model
        [("lib1", ⟨"https://github.com/a/b", "main", "c", ".", "libs/lib1", some [1], 0⟩)]
        [] =
      CleanOut.finished [] := by
  refine ⟨by decide, by decide⟩
